import Mathlib

/-!
Verification development for the rokok-kasir-pintar point-of-sale repository.

Each namespace below is a shallow embedding of one source file's state and
handlers:

* `RokokKasir.SalesModal` — `src/components/SalesModal.tsx` (the revision that
  records a sale with two independent supabase writes: a `sales` insert
  followed by a `products` stock update).
* `RokokKasir.SalesManagement` — `src/pages/SalesManagement.tsx` (edit and
  delete of sale records over the products/sales lists).
* `RokokKasir.DebtManagement` — `src/pages/DebtManagement.tsx` (debt
  aggregation per customer and the mark-as-paid update).
* `RokokKasir.StockUpdate` — `src/pages/StockUpdate.tsx` (manual stock
  add / subtract / reset).

JavaScript numerics that matter here are integers, except that `parseInt`
on a non-numeric string yields NaN; a NaN-aware integer type `JsInt` with
JS comparison/arithmetic semantics models that where the code can meet it.
-/

namespace RokokKasir

namespace SalesModal

/-- A JavaScript number restricted to the integer values the code computes
with, plus NaN: `none` is NaN (what `parseInt` returns on a non-numeric
string), `some n` the integer `n`. -/
abbrev JsInt := Option Int

/-- JS `a <= b`: a comparison involving NaN is false. -/
def jsLe : JsInt → JsInt → Bool
  | some a, some b => a ≤ b
  | _, _ => false

/-- JS `a > b`: a comparison involving NaN is false. -/
def jsGt : JsInt → JsInt → Bool
  | some a, some b => b < a
  | _, _ => false

/-- JS multiplication; NaN propagates. -/
def jsMul : JsInt → JsInt → JsInt
  | some a, some b => some (a * b)
  | _, _ => none

/-- JS subtraction; NaN propagates. -/
def jsSub : JsInt → JsInt → JsInt
  | some a, some b => some (a - b)
  | _, _ => none

/-- A row of the `products` table as `SalesModal.tsx` reads it. The stock is
a `JsInt` because the stock-update write stores
`selectedProduct.current_stock - quantity`, which is NaN when the parsed
quantity is NaN. -/
structure Product where
  id : String
  product_name : String
  purchase_price : Int
  selling_price : Int
  current_stock : JsInt
deriving Repr, DecidableEq

/-- A row of the `sales` table as `handleSubmit` inserts it (`saleData`). -/
structure Sale where
  product_id : String
  quantity_sold : JsInt
  total_revenue : JsInt
  total_cost : JsInt
  total_profit : JsInt
  payment_status : String
  customer_id : Option String
deriving Repr, DecidableEq

/-- The two tables the handler reads and writes. -/
structure Store where
  products : List Product
  sales : List Sale
deriving Repr, DecidableEq

/-- The `quantitySold` form field as submitted: the empty string, a numeric
string that `parseInt` parses to `n`, or a non-empty non-numeric string
(`parseInt` gives NaN). -/
inductive QtyField
  | empty
  | numeric (n : Int)
  | nonNumeric
deriving Repr, DecidableEq

/-- `parseInt(quantitySold)`. -/
def QtyField.parse : QtyField → JsInt
  | .numeric n => some n
  | _ => none

/-- JS falsiness of the raw string field: only the empty string is falsy. -/
def QtyField.isEmptyStr : QtyField → Bool
  | .empty => true
  | _ => false

/-- The component state `handleSubmit` reads when the form is submitted. -/
structure SaleInput where
  selectedProductID : String
  quantitySold : QtyField
  isDebt : Bool
  selectedCustomerID : String
deriving Repr, DecidableEq

/-- Whether each of the two independent supabase writes succeeds; the
handler issues the `sales` insert first and the stock update second. -/
structure PersistEnv where
  saleInsertOk : Bool
  stockUpdateOk : Bool
deriving Repr, DecidableEq

/-- The toast the user sees, one constructor per exit of `handleSubmit`. -/
inductive SaleOutcome
  | committed
  | missingFields
  | missingCustomer
  | productNotFound
  | invalidQuantity
  | insufficientStock (remaining : JsInt)
  | persistenceFailure
deriving Repr, DecidableEq

/-- `handleSubmit` of `SalesModal.tsx`: the guard checks in source order
(missing fields; debt without a customer; product lookup; `quantity <= 0`;
`quantity > current_stock`), then the sale insert and the stock decrement
as two independent writes inside one try/catch — a write that fails throws,
and the catch leaves every earlier write in place. Returns the outcome and
the resulting store. -/
def recordSale (env : PersistEnv) (st : Store) (inp : SaleInput) :
    SaleOutcome × Store :=
  if inp.selectedProductID = "" ∨ inp.quantitySold.isEmptyStr = true then
    (.missingFields, st)
  else if inp.isDebt = true ∧ inp.selectedCustomerID = "" then
    (.missingCustomer, st)
  else
    match st.products.find? (fun p => p.id = inp.selectedProductID) with
    | none => (.productNotFound, st)
    | some selectedProduct =>
      let quantity := inp.quantitySold.parse
      if jsLe quantity (some 0) = true then
        (.invalidQuantity, st)
      else if jsGt quantity selectedProduct.current_stock = true then
        (.insufficientStock selectedProduct.current_stock, st)
      else
        let totalRevenue := jsMul (some selectedProduct.selling_price) quantity
        let totalCost := jsMul (some selectedProduct.purchase_price) quantity
        let saleData : Sale :=
          { product_id := inp.selectedProductID
            quantity_sold := quantity
            total_revenue := totalRevenue
            total_cost := totalCost
            total_profit := jsSub totalRevenue totalCost
            payment_status := if inp.isDebt then "Hutang" else "Lunas"
            customer_id := if inp.isDebt then some inp.selectedCustomerID else none }
        if env.saleInsertOk then
          let afterInsert : Store := { st with sales := st.sales ++ [saleData] }
          if env.stockUpdateOk then
            (.committed,
              { afterInsert with
                products := afterInsert.products.map fun p =>
                  if p.id = inp.selectedProductID then
                    { p with current_stock := jsSub p.current_stock quantity }
                  else p })
          else
            (.persistenceFailure, afterInsert)
        else
          (.persistenceFailure, st)

/-- A product with stock 10 for concrete evaluations. -/
def demoProduct : Product :=
  { id := "p1", product_name := "Surya 12", purchase_price := 10
    selling_price := 15, current_stock := some 10 }

/-- A store holding just `demoProduct` and no sales. -/
def demoStore : Store := { products := [demoProduct], sales := [] }

/-- A well-formed cash sale of 2 units of `demoProduct`. -/
def demoInput : SaleInput :=
  { selectedProductID := "p1", quantitySold := .numeric 2
    isDebt := false, selectedCustomerID := "" }

/-- C1: `recordSale` is claimed to be all-or-nothing, but the two writes are
independent: when the `sales` insert succeeds and the stock update then
fails, the handler reports a failure while the sale row stays inserted and
the product stock stays at its old value — a partially committed state. -/
theorem recordSale_torn_write :
    (recordSale { saleInsertOk := true, stockUpdateOk := false }
        demoStore demoInput).1 = .persistenceFailure ∧
    (recordSale { saleInsertOk := true, stockUpdateOk := false }
        demoStore demoInput).2.sales.length = 1 ∧
    (recordSale { saleInsertOk := true, stockUpdateOk := false }
        demoStore demoInput).2.products = [demoProduct] := by
  decide

/-- A non-empty, non-numeric quantity for `demoProduct`. -/
def nanInput : SaleInput :=
  { selectedProductID := "p1", quantitySold := .nonNumeric
    isDebt := false, selectedCustomerID := "" }

/-- C4: a non-numeric quantity parses to NaN, and both `quantity <= 0` and
`quantity > current_stock` are false on NaN, so the handler does not reject
with the invalid-quantity error: it commits, inserting a sale whose quantity
and totals are NaN and writing NaN into the product stock. -/
theorem recordSale_nan_commits :
    (recordSale { saleInsertOk := true, stockUpdateOk := true }
        demoStore nanInput).1 = .committed ∧
    (recordSale { saleInsertOk := true, stockUpdateOk := true }
        demoStore nanInput).1 ≠ .invalidQuantity ∧
    (recordSale { saleInsertOk := true, stockUpdateOk := true }
        demoStore nanInput).2.sales.map Sale.quantity_sold = [none] ∧
    (recordSale { saleInsertOk := true, stockUpdateOk := true }
        demoStore nanInput).2.products.map Product.current_stock = [none] := by
  decide

/-- A Hutang sale naming a product id that is not in the store, with no
customer selected: two checks are violated at once. -/
def debtNoCustomerInput : SaleInput :=
  { selectedProductID := "missing", quantitySold := .numeric 1
    isDebt := true, selectedCustomerID := "" }

/-- C2 counterexample: when the product does not exist and a Hutang sale has
no customer, the handler reports the missing customer, not ProductNotFound —
so the claimed order (product existence first) does not match the code. -/
theorem recordSale_order_cex :
    (recordSale { saleInsertOk := true, stockUpdateOk := true }
        demoStore debtNoCustomerInput).1 = .missingCustomer ∧
    (recordSale { saleInsertOk := true, stockUpdateOk := true }
        demoStore debtNoCustomerInput).1 ≠ .productNotFound := by
  decide

/-- C2 (amended): `recordSale` validates fail-fast in the source's order —
missing fields first; then MissingCustomer for a Hutang sale without a
customer; then ProductNotFound; then InvalidQuantity when the parsed
quantity is `<= 0`; then InsufficientStock, reporting the current stock,
when the quantity exceeds it. Each conjunct states that the first violated
check in that order determines the outcome. -/
theorem recordSale_validation_order (env : PersistEnv) (st : Store)
    (inp : SaleInput) :
    ((inp.selectedProductID = "" ∨ inp.quantitySold.isEmptyStr = true) →
      (recordSale env st inp).1 = .missingFields) ∧
    (¬ (inp.selectedProductID = "" ∨ inp.quantitySold.isEmptyStr = true) →
      inp.isDebt = true → inp.selectedCustomerID = "" →
      (recordSale env st inp).1 = .missingCustomer) ∧
    (¬ (inp.selectedProductID = "" ∨ inp.quantitySold.isEmptyStr = true) →
      ¬ (inp.isDebt = true ∧ inp.selectedCustomerID = "") →
      st.products.find? (fun p => p.id = inp.selectedProductID) = none →
      (recordSale env st inp).1 = .productNotFound) ∧
    (∀ prod,
      ¬ (inp.selectedProductID = "" ∨ inp.quantitySold.isEmptyStr = true) →
      ¬ (inp.isDebt = true ∧ inp.selectedCustomerID = "") →
      st.products.find? (fun p => p.id = inp.selectedProductID) = some prod →
      jsLe inp.quantitySold.parse (some 0) = true →
      (recordSale env st inp).1 = .invalidQuantity) ∧
    (∀ prod,
      ¬ (inp.selectedProductID = "" ∨ inp.quantitySold.isEmptyStr = true) →
      ¬ (inp.isDebt = true ∧ inp.selectedCustomerID = "") →
      st.products.find? (fun p => p.id = inp.selectedProductID) = some prod →
      ¬ jsLe inp.quantitySold.parse (some 0) = true →
      jsGt inp.quantitySold.parse prod.current_stock = true →
      (recordSale env st inp).1 = .insufficientStock prod.current_stock) := by
  refine ⟨fun h => ?_, fun h1 hd hc => ?_, fun h1 h2 hf => ?_,
    fun prod h1 h2 hf hle => ?_, fun prod h1 h2 hf hle hgt => ?_⟩
  · simp only [recordSale, if_pos h]
  · simp only [recordSale, if_neg h1, if_pos (And.intro hd hc)]
  · simp only [recordSale, if_neg h1, if_neg h2, hf]
  · simp only [recordSale, if_neg h1, if_neg h2, hf, if_pos hle]
  · simp only [recordSale, if_neg h1, if_neg h2, hf, if_neg hle, if_pos hgt]

end SalesModal

namespace SalesManagement

/-- A product as `SalesManagement.tsx` stores it. -/
structure Product where
  productID : String
  productName : String
  purchasePrice : Int
  sellingPrice : Int
  initialStock : Int
  currentStock : Int
deriving Repr, DecidableEq

/-- A sale record as `SalesManagement.tsx` stores it. -/
structure Sale where
  saleID : String
  productID_ref : String
  quantitySold : Int
  totalRevenue : Int
  totalCost : Int
  totalProfit : Int
deriving Repr, DecidableEq

/-- The persisted products and sales lists. -/
structure Store where
  products : List Product
  sales : List Sale
deriving Repr, DecidableEq

/-- The rejections the sale handlers can report. -/
inductive SaleError
  | productNotFound
  | saleNotFound
  | invalidQuantity
  | insufficientStock (remaining : Int)
deriving Repr, DecidableEq

/-- The editing branch of `handleSubmit` in `SalesManagement.tsx`: the edit
dialog is opened on an existing sale (`editingSale`), so the `saleNotFound`
branch only closes the lookup this embedding makes explicit. The handler
finds the selected product, computes `quantityDiff = quantity - oldQuantity`,
rejects when `quantityDiff > currentStock`, and otherwise rewrites the sale
with totals recomputed from the product's current prices and applies
`-quantityDiff` to the stock of every row with the selected product's id.
There is no check that the submitted quantity is positive. -/
def editSale (st : Store) (saleID productID_ref : String) (quantity : Int) :
    Except SaleError Store :=
  match st.products.find? (fun p => p.productID = productID_ref) with
  | none => .error .productNotFound
  | some selectedProduct =>
    match st.sales.find? (fun s => s.saleID = saleID) with
    | none => .error .saleNotFound
    | some editingSale =>
      let quantityDiff := quantity - editingSale.quantitySold
      if selectedProduct.currentStock < quantityDiff then
        .error (.insufficientStock selectedProduct.currentStock)
      else
        let totalRevenue := selectedProduct.sellingPrice * quantity
        let totalCost := selectedProduct.purchasePrice * quantity
        let updatedSale : Sale :=
          { editingSale with
            productID_ref := productID_ref
            quantitySold := quantity
            totalRevenue := totalRevenue
            totalCost := totalCost
            totalProfit := totalRevenue - totalCost }
        .ok
          { products := st.products.map fun p =>
              if p.productID = selectedProduct.productID then
                { p with currentStock := p.currentStock - quantityDiff }
              else p
            sales := st.sales.map fun s =>
              if s.saleID = editingSale.saleID then updatedSale else s }

/-- `handleDelete` of `SalesManagement.tsx`: if the sale id is found, every
product row with the sale's product id gets the sale's quantity added back
and the sale rows with that id are filtered out; otherwise nothing happens. -/
def deleteSale (st : Store) (saleID : String) : Store :=
  match st.sales.find? (fun s => s.saleID = saleID) with
  | none => st
  | some saleToDelete =>
    { products := st.products.map fun p =>
        if p.productID = saleToDelete.productID_ref then
          { p with currentStock := p.currentStock + saleToDelete.quantitySold }
        else p
      sales := st.sales.filter fun s => ¬ s.saleID = saleID }

/-- Recording a new sale, after `handleSubmit` of `SalesModal.tsx` restated
over this file's store shape: find the product, reject `quantity <= 0`,
reject `quantity > current_stock` (reporting the remaining stock), otherwise
insert the sale with totals from the current prices and decrement the
product stock by the quantity. The payment/customer fields of the modal do
not touch the stock and are not part of this store's sale shape. -/
def recordSale (st : Store) (saleID productID_ref : String) (quantity : Int) :
    Except SaleError Store :=
  match st.products.find? (fun p => p.productID = productID_ref) with
  | none => .error .productNotFound
  | some selectedProduct =>
    if quantity ≤ 0 then .error .invalidQuantity
    else if selectedProduct.currentStock < quantity then
      .error (.insufficientStock selectedProduct.currentStock)
    else
      let totalRevenue := selectedProduct.sellingPrice * quantity
      let totalCost := selectedProduct.purchasePrice * quantity
      let sale : Sale :=
        { saleID := saleID
          productID_ref := productID_ref
          quantitySold := quantity
          totalRevenue := totalRevenue
          totalCost := totalCost
          totalProfit := totalRevenue - totalCost }
      .ok
        { products := st.products.map fun p =>
            if p.productID = selectedProduct.productID then
              { p with currentStock := p.currentStock - quantity }
            else p
          sales := st.sales ++ [sale] }

/-- One user action on the sales pages. -/
inductive Op
  | record (saleID productID_ref : String) (quantity : Int)
  | edit (saleID productID_ref : String) (quantity : Int)
  | delete (saleID : String)
deriving Repr, DecidableEq

/-- Apply one action; a rejected action leaves the store unchanged. -/
def applyOp (st : Store) : Op → Store
  | .record sid pid q =>
    match recordSale st sid pid q with
    | .ok st' => st'
    | .error _ => st
  | .edit sid pid q =>
    match editSale st sid pid q with
    | .ok st' => st'
    | .error _ => st
  | .delete sid => deleteSale st sid

/-- Apply a sequence of actions. -/
def runOps (st : Store) (ops : List Op) : Store := ops.foldl applyOp st

/-- A product with one unit in stock. -/
def seqProduct : Product :=
  { productID := "P", productName := "Gudang Garam", purchasePrice := 10
    sellingPrice := 12, initialStock := 1, currentStock := 1 }

/-- Start state: one product, stock 1, no sales. -/
def seqStore : Store := { products := [seqProduct], sales := [] }

/-- Sell the unit, edit the sale's quantity to -1 (the edit form does not
validate the quantity), sell the stock the edit handed back, then delete the
edited sale: the delete adds its -1 quantity to a stock of 0. -/
def badOps : List Op :=
  [.record "s1" "P" 1, .edit "s1" "P" (-1), .record "s2" "P" 2, .delete "s1"]

/-- C3: a sequence of the three operations that starts from non-negative
stock and ends with `current_stock = -1`: the edit handler accepts a
negative quantity, and deleting that sale later drives the stock below
zero. -/
theorem runOps_negative_stock :
    (∀ p ∈ seqStore.products, 0 ≤ p.currentStock) ∧
    (runOps seqStore badOps).products.map Product.currentStock = [-1] := by
  decide

/-- A found product carries the id it was looked up by. -/
lemma product_find?_id {l : List Product} {pid : String} {prod : Product}
    (h : l.find? (fun p => p.productID = pid) = some prod) :
    prod.productID = pid := by
  have h2 := List.find?_some h
  simpa using h2

/-- A found sale carries the id it was looked up by. -/
lemma sale_find?_id {l : List Sale} {sid : String} {sale : Sale}
    (h : l.find? (fun s => s.saleID = sid) = some sale) :
    sale.saleID = sid := by
  have h2 := List.find?_some h
  simpa using h2

/-- The success case of `editSale`, written out: the sale rows with the
edited id are rewritten with the new product reference, quantity and totals
from the selected product's current prices, and the rows of the selected
product get `-(q - oldQuantity)` applied to their stock. -/
lemma editSale_ok (st : Store) (sid pid : String) (q : Int)
    (prod : Product) (sale : Sale)
    (hp : st.products.find? (fun p => p.productID = pid) = some prod)
    (hs : st.sales.find? (fun s => s.saleID = sid) = some sale)
    (hq : ¬ prod.currentStock < q - sale.quantitySold) :
    editSale st sid pid q = .ok
      { products := st.products.map fun p =>
          if p.productID = pid then
            { p with currentStock := p.currentStock - (q - sale.quantitySold) }
          else p
        sales := st.sales.map fun s =>
          if s.saleID = sid then
            { sale with
              productID_ref := pid
              quantitySold := q
              totalRevenue := prod.sellingPrice * q
              totalCost := prod.purchasePrice * q
              totalProfit := prod.sellingPrice * q - prod.purchasePrice * q }
          else s } := by
  have hpid := product_find?_id hp
  have hsid := sale_find?_id hs
  simp only [editSale, hp, hs, if_neg hq, hpid, hsid]

/-- C5: editing an existing sale whose product reference is unchanged is
rejected with InsufficientStock, reporting the current stock, exactly when
`q - oldQuantity` exceeds that stock; on success the product's stock drops
by that delta (so a decreased quantity returns units) and the sale's totals
are recomputed from the product's current prices. -/
theorem editSale_same_product_spec (st : Store) (sid pid : String) (q : Int)
    (prod : Product) (sale : Sale)
    (hp : st.products.find? (fun p => p.productID = pid) = some prod)
    (hs : st.sales.find? (fun s => s.saleID = sid) = some sale)
    (href : sale.productID_ref = pid) :
    ((editSale st sid pid q = .error (.insufficientStock prod.currentStock)) ↔
      prod.currentStock < q - sale.quantitySold) ∧
    (q - sale.quantitySold ≤ prod.currentStock →
      editSale st sid pid q = .ok
        { products := st.products.map fun p =>
            if p.productID = pid then
              { p with currentStock := p.currentStock - (q - sale.quantitySold) }
            else p
          sales := st.sales.map fun s =>
            if s.saleID = sid then
              { sale with
                productID_ref := pid
                quantitySold := q
                totalRevenue := prod.sellingPrice * q
                totalCost := prod.purchasePrice * q
                totalProfit := prod.sellingPrice * q - prod.purchasePrice * q }
            else s }) := by
  constructor
  · constructor
    · intro h
      by_contra hq
      rw [editSale_ok st sid pid q prod sale hp hs hq] at h
      exact Except.noConfusion h
    · intro hlt
      simp only [editSale, hp, hs, if_pos hlt]
  · intro hle
    exact editSale_ok st sid pid q prod sale hp hs (not_lt.mpr hle)

/-- Product stock 15 after five of its twenty units were sold. -/
def edP : Product :=
  { productID := "P", productName := "Sampoerna", purchasePrice := 1
    sellingPrice := 2, initialStock := 20, currentStock := 15 }

/-- The recorded sale of five units. -/
def edS : Sale :=
  { saleID := "s1", productID_ref := "P", quantitySold := 5
    totalRevenue := 10, totalCost := 5, totalProfit := 5 }

/-- Store for the edit example. -/
def edSt : Store := { products := [edP], sales := [edS] }

/-- C5 witness: raising the sale from 5 to 8 units consumes the +3 delta,
leaving stock 12 and totals recomputed. -/
theorem editSale_same_product_witness :
    editSale edSt "s1" "P" 8 = .ok
      { products := [{ edP with currentStock := 12 }]
        sales := [{ edS with
          quantitySold := 8
          totalRevenue := 16
          totalCost := 8
          totalProfit := 8 }] } := by
  have h := (editSale_same_product_spec edSt "s1" "P" 8 edP edS
    (by decide) (by decide) (by decide)).2 (by decide)
  exact h.trans (by rfl)

/-- With distinct sale ids, the rows matching a found id are exactly the
found row. -/
lemma filter_saleID_eq_singleton {l : List Sale} {sid : String} {sale : Sale}
    (h : l.find? (fun s => s.saleID = sid) = some sale)
    (hnodup : (l.map Sale.saleID).Nodup) :
    l.filter (fun s => s.saleID = sid) = [sale] := by
  induction l with
  | nil => simp at h
  | cons c t ih =>
    by_cases hc : c.saleID = sid
    · rw [List.find?_cons_of_pos _ (by simpa using hc)] at h
      have hcs : c = sale := by simpa using h
      subst hcs
      have hnot : ∀ s ∈ t, ¬ s.saleID = sid := by
        intro s hsmem hseq
        have : c.saleID ∈ t.map Sale.saleID :=
          List.mem_map.mpr ⟨s, hsmem, by rw [hseq, hc]⟩
        exact (List.nodup_cons.mp (by simpa using hnodup)).1 this
      rw [List.filter_cons_of_pos (by simpa using hc)]
      rw [List.filter_eq_nil_iff.mpr (by simpa using hnot)]
    · rw [List.find?_cons_of_neg _ (by simpa using hc)] at h
      rw [List.filter_cons_of_neg (by simpa using hc)]
      exact ih h (by simpa using (List.nodup_cons.mp (by simpa using hnodup)).2)

/-- C6: deleting a found sale (with distinct sale ids) keeps exactly the
sale rows with other ids, unchanged; the rows matching the id were exactly
the deleted sale; products not referenced by the sale are unchanged; and the
referenced product's row reappears with the sale's quantity added back. -/
theorem deleteSale_spec (st : Store) (sid : String) (sale : Sale)
    (hs : st.sales.find? (fun s => s.saleID = sid) = some sale)
    (hnodup : (st.sales.map Sale.saleID).Nodup) :
    (deleteSale st sid).sales = st.sales.filter (fun s => ¬ s.saleID = sid) ∧
    st.sales.filter (fun s => s.saleID = sid) = [sale] ∧
    (∀ p ∈ st.products, p.productID ≠ sale.productID_ref →
      p ∈ (deleteSale st sid).products) ∧
    (∀ p ∈ st.products, p.productID = sale.productID_ref →
      { p with currentStock := p.currentStock + sale.quantitySold } ∈
        (deleteSale st sid).products) := by
  refine ⟨?_, filter_saleID_eq_singleton hs hnodup, ?_, ?_⟩
  · simp only [deleteSale, hs]
  · intro p hpmem hne
    simp only [deleteSale, hs]
    exact List.mem_map.mpr ⟨p, hpmem, if_neg hne⟩
  · intro p hpmem heq
    simp only [deleteSale, hs]
    exact List.mem_map.mpr ⟨p, hpmem, if_pos heq⟩

/-- Product referenced by the deletion example's sale, stock 3. -/
def delP : Product :=
  { productID := "Q", productName := "Djarum", purchasePrice := 4
    sellingPrice := 6, initialStock := 8, currentStock := 3 }

/-- The sale of five units to be deleted. -/
def delS : Sale :=
  { saleID := "d1", productID_ref := "Q", quantitySold := 5
    totalRevenue := 30, totalCost := 20, totalProfit := 10 }

/-- Store for the deletion example. -/
def delSt : Store := { products := [delP], sales := [delS] }

/-- C6 witness: deleting the five-unit sale removes it and restores the
five units to the product's stock. -/
theorem deleteSale_spec_witness :
    (deleteSale delSt "d1").sales =
      delSt.sales.filter (fun s => ¬ s.saleID = "d1") ∧
    { delP with currentStock := delP.currentStock + delS.quantitySold } ∈
      (deleteSale delSt "d1").products := by
  have h := deleteSale_spec delSt "d1" delS (by decide) (by decide)
  exact ⟨h.1, h.2.2.2 delP (by decide) (by decide)⟩

/-- C10: editing a sale from product `A` over to product `B` adjusts only
rows with id `B`, and only by `q - oldQuantity`: every row with another id —
in particular every row of `A` — survives unchanged, so the old quantity is
never returned to `A`, and `B` is charged the delta, not the full new
quantity; the edited sale ends up referencing `B`. -/
theorem editSale_changed_product_frame (st : Store) (sid A B : String)
    (q : Int) (prodB : Product) (sale : Sale)
    (hp : st.products.find? (fun p => p.productID = B) = some prodB)
    (hs : st.sales.find? (fun s => s.saleID = sid) = some sale)
    (hA : sale.productID_ref = A) (hAB : A ≠ B)
    (hstock : q - sale.quantitySold ≤ prodB.currentStock) :
    ∃ st', editSale st sid B q = .ok st' ∧
      (∀ p ∈ st.products, p.productID ≠ B → p ∈ st'.products) ∧
      (∀ p ∈ st.products, p.productID = A → p ∈ st'.products) ∧
      (∀ p ∈ st.products, p.productID = B →
        { p with currentStock := p.currentStock - (q - sale.quantitySold) } ∈
          st'.products) ∧
      (∀ s ∈ st'.sales, s.saleID = sid → s.productID_ref = B) := by
  refine ⟨_, editSale_ok st sid B q prodB sale hp hs (not_lt.mpr hstock),
    ?_, ?_, ?_, ?_⟩
  · intro p hpmem hne
    exact List.mem_map.mpr ⟨p, hpmem, if_neg hne⟩
  · intro p hpmem hAeq
    have hne : p.productID ≠ B := by rw [hAeq]; exact hAB
    exact List.mem_map.mpr ⟨p, hpmem, if_neg hne⟩
  · intro p hpmem heq
    exact List.mem_map.mpr ⟨p, hpmem, if_pos heq⟩
  · intro s hsmem hside
    rcases List.mem_map.mp hsmem with ⟨s0, hs0mem, rfl⟩
    by_cases h0 : s0.saleID = sid
    · rw [if_pos h0]
    · rw [if_neg h0] at hside ⊢
      exact absurd hside h0

/-- The product the changed-product example's sale starts on. -/
def chA : Product :=
  { productID := "A", productName := "Marlboro", purchasePrice := 20
    sellingPrice := 25, initialStock := 9, currentStock := 5 }

/-- The product the sale is moved to. -/
def chB : Product :=
  { productID := "B", productName := "Dunhill", purchasePrice := 22
    sellingPrice := 28, initialStock := 12, currentStock := 10 }

/-- The sale of two units of `chA`. -/
def chS : Sale :=
  { saleID := "c1", productID_ref := "A", quantitySold := 2
    totalRevenue := 50, totalCost := 40, totalProfit := 10 }

/-- Store for the changed-product example. -/
def chSt : Store := { products := [chA, chB], sales := [chS] }

/-- C10 witness: moving the two-unit sale from `A` onto `B` with quantity 3
succeeds and leaves `A`'s row untouched. -/
theorem editSale_changed_product_witness :
    ∃ st', editSale chSt "c1" "B" 3 = Except.ok st' ∧ chA ∈ st'.products := by
  obtain ⟨st', heq, _, hAkeep, _, _⟩ :=
    editSale_changed_product_frame chSt "c1" "A" "B" 3 chB chS
      (by decide) (by decide) (by decide) (by decide) (by decide)
  exact ⟨st', heq, hAkeep chA (by decide) (by decide)⟩

end SalesManagement

namespace DebtManagement

/-- A row of the `Pelanggan` (customer) table. -/
structure Pelanggan where
  id : String
  namaPelanggan : String
deriving Repr, DecidableEq

/-- A row of the `Penjualan` (sales) table as `DebtManagement.tsx` reads it. -/
structure Penjualan where
  id : String
  produk_id : String
  pelanggan_id : Option String
  jumlahTerjual : Int
  totalPendapatan : Int
  statusPembayaran : String
deriving Repr, DecidableEq

/-- One entry of the customer-debt map `fetchCustomersWithDebt` builds. -/
structure CustomerDebt where
  id : String
  namaPelanggan : String
  total_debt : Int
deriving Repr, DecidableEq

/-- One step of the `forEach` over the queried sales: an existing map entry
for the customer is incremented, otherwise a fresh entry is appended. -/
def addDebt (m : List CustomerDebt) (cid nm : String) (amt : Int) :
    List CustomerDebt :=
  if m.any (fun c => c.id = cid) then
    m.map fun c =>
      if c.id = cid then { c with total_debt := c.total_debt + amt } else c
  else
    m ++ [{ id := cid, namaPelanggan := nm, total_debt := amt }]

/-- The body of the `forEach`: a sale contributes only when its customer
reference is set and the joined `Pelanggan` row exists. -/
def debtStep (pelanggan : List Pelanggan) (m : List CustomerDebt)
    (s : Penjualan) : List CustomerDebt :=
  match s.pelanggan_id with
  | none => m
  | some cid =>
    match pelanggan.find? (fun c => c.id = cid) with
    | none => m
    | some c => addDebt m cid c.namaPelanggan s.totalPendapatan

/-- `fetchCustomersWithDebt` of `DebtManagement.tsx`: the query keeps the
sales with `statusPembayaran = 'Hutang'` and a non-null `pelanggan_id`, and
the result is grouped by customer, summing `totalPendapatan`. -/
def fetchCustomersWithDebt (pelanggan : List Pelanggan)
    (penjualan : List Penjualan) : List CustomerDebt :=
  (penjualan.filter fun s =>
      s.statusPembayaran = "Hutang" ∧ s.pelanggan_id ≠ none).foldl
    (debtStep pelanggan) []

/-- The debt the built map reports for a customer id, zero when absent. -/
def debtOf (m : List CustomerDebt) (cid : String) : Int :=
  match m.find? (fun c => c.id = cid) with
  | some c => c.total_debt
  | none => 0

/-- `debtOf` reads the head entry when its id matches. -/
lemma debtOf_cons_pos {c : CustomerDebt} {t : List CustomerDebt} {x : String}
    (h : c.id = x) : debtOf (c :: t) x = c.total_debt := by
  unfold debtOf
  rw [List.find?_cons_of_pos _ (by simpa using h)]

/-- `debtOf` skips the head entry when its id differs. -/
lemma debtOf_cons_neg {c : CustomerDebt} {t : List CustomerDebt} {x : String}
    (h : ¬ c.id = x) : debtOf (c :: t) x = debtOf t x := by
  unfold debtOf
  rw [List.find?_cons_of_neg _ (by simpa using h)]

/-- `addDebt` for another id passes an unmatched head through. -/
lemma addDebt_cons_ne {c : CustomerDebt} {t : List CustomerDebt}
    {cid nm : String} {amt : Int} (hc : ¬ c.id = cid) :
    addDebt (c :: t) cid nm amt = c :: addDebt t cid nm amt := by
  by_cases h : t.any (fun c => c.id = cid)
  · simp [addDebt, hc, h]
  · simp [addDebt, hc, h]

/-- `addDebt` with a matched head updates it in place. -/
lemma addDebt_cons_eq {c : CustomerDebt} {t : List CustomerDebt}
    {cid nm : String} {amt : Int} (hc : c.id = cid) :
    addDebt (c :: t) cid nm amt =
      { c with total_debt := c.total_debt + amt } ::
        (t.map fun d =>
          if d.id = cid then { d with total_debt := d.total_debt + amt }
          else d) := by
  simp [addDebt, hc]

/-- The in-place update for one id leaves every other id's debt alone. -/
lemma debtOf_map_update (cid : String) (amt : Int) {x : String}
    (hx : ¬ x = cid) :
    ∀ t : List CustomerDebt,
      debtOf (t.map fun d =>
        if d.id = cid then { d with total_debt := d.total_debt + amt }
        else d) x = debtOf t x := by
  intro t
  induction t with
  | nil => rfl
  | cons d r ih =>
    rw [List.map_cons]
    by_cases hd : d.id = x
    · have hdc : ¬ d.id = cid := by rw [hd]; exact hx
      rw [if_neg hdc, debtOf_cons_pos hd, debtOf_cons_pos hd]
    · by_cases hdc : d.id = cid
      · rw [if_pos hdc, debtOf_cons_neg (by simpa using hd), debtOf_cons_neg hd]
        exact ih
      · rw [if_neg hdc, debtOf_cons_neg hd, debtOf_cons_neg hd]
        exact ih

/-- Adding `amt` for a customer raises exactly that customer's debt by
`amt`. -/
lemma debtOf_addDebt_self (cid nm : String) (amt : Int) :
    ∀ m : List CustomerDebt,
      debtOf (addDebt m cid nm amt) cid = debtOf m cid + amt := by
  intro m
  induction m with
  | nil =>
    show debtOf [{ id := cid, namaPelanggan := nm, total_debt := amt }] cid =
      debtOf [] cid + amt
    rw [debtOf_cons_pos rfl]
    show amt = 0 + amt
    rw [zero_add]
  | cons c t ih =>
    by_cases hc : c.id = cid
    · have h2 : ({ c with total_debt := c.total_debt + amt } :
          CustomerDebt).id = cid := hc
      rw [addDebt_cons_eq hc, debtOf_cons_pos h2, debtOf_cons_pos hc]
    · rw [addDebt_cons_ne hc, debtOf_cons_neg hc, debtOf_cons_neg hc]
      exact ih

/-- Adding `amt` for a customer leaves every other customer's debt alone. -/
lemma debtOf_addDebt_ne (cid nm : String) (amt : Int) {x : String}
    (hx : ¬ x = cid) :
    ∀ m : List CustomerDebt,
      debtOf (addDebt m cid nm amt) x = debtOf m x := by
  intro m
  induction m with
  | nil =>
    show debtOf [{ id := cid, namaPelanggan := nm, total_debt := amt }] x =
      debtOf [] x
    rw [debtOf_cons_neg (fun h => hx h.symm)]
  | cons c t ih =>
    by_cases hc : c.id = cid
    · have hcx : ¬ c.id = x := by rw [hc]; exact fun h => hx h.symm
      have h2 : ¬ ({ c with total_debt := c.total_debt + amt } :
          CustomerDebt).id = x := hcx
      rw [addDebt_cons_eq hc, debtOf_cons_neg h2, debtOf_cons_neg hcx]
      exact debtOf_map_update cid amt hx t
    · rw [addDebt_cons_ne hc]
      by_cases hcx : c.id = x
      · rw [debtOf_cons_pos hcx, debtOf_cons_pos hcx]
      · rw [debtOf_cons_neg hcx, debtOf_cons_neg hcx]
        exact ih

/-- Folding the `forEach` body over any sale list adds, to any starting
map, exactly the revenue of the sales referencing customer `X` — provided
`X` is a customer the join can resolve. -/
lemma foldl_debtStep (pelanggan : List Pelanggan) (X : String) (cX : Pelanggan)
    (hX : pelanggan.find? (fun c => c.id = X) = some cX) :
    ∀ (L : List Penjualan) (m : List CustomerDebt),
      debtOf (L.foldl (debtStep pelanggan) m) X =
        debtOf m X +
          ((L.filter fun s => s.pelanggan_id = some X).map
            Penjualan.totalPendapatan).sum := by
  intro L
  induction L with
  | nil => intro m; simp
  | cons s L ih =>
    intro m
    rw [List.foldl_cons, ih (debtStep pelanggan m s)]
    rcases hps : s.pelanggan_id with _ | cid
    · rw [List.filter_cons_of_neg (by simp [hps])]
      rw [show debtStep pelanggan m s = m by simp [debtStep, hps]]
    · by_cases hcid : cid = X
      · subst hcid
        rw [List.filter_cons_of_pos (by simp [hps]), List.map_cons,
          List.sum_cons]
        rw [show debtStep pelanggan m s =
          addDebt m cid cX.namaPelanggan s.totalPendapatan by
            simp [debtStep, hps, hX]]
        rw [debtOf_addDebt_self]
        omega
      · rw [List.filter_cons_of_neg (by simp [hps, hcid])]
        rcases hfind : pelanggan.find? (fun c => c.id = cid) with _ | c
        · rw [show debtStep pelanggan m s = m by simp [debtStep, hps, hfind]]
        · rw [show debtStep pelanggan m s =
            addDebt m cid c.namaPelanggan s.totalPendapatan by
              simp [debtStep, hps, hfind]]
          rw [debtOf_addDebt_ne cid c.namaPelanggan s.totalPendapatan
            (fun h => hcid h.symm)]

/-- C7: the debt `fetchCustomersWithDebt` reports for a customer `X` that
exists in the customer table is the sum of `totalPendapatan` (revenue, not
profit) over exactly the sales that reference `X` and have
`statusPembayaran = 'Hutang'`. -/
theorem debt_total_spec (pelanggan : List Pelanggan)
    (penjualan : List Penjualan) (X : String) (cX : Pelanggan)
    (hX : pelanggan.find? (fun c => c.id = X) = some cX) :
    debtOf (fetchCustomersWithDebt pelanggan penjualan) X =
      ((penjualan.filter fun s =>
          s.pelanggan_id = some X ∧ s.statusPembayaran = "Hutang").map
        Penjualan.totalPendapatan).sum := by
  unfold fetchCustomersWithDebt
  rw [foldl_debtStep pelanggan X cX hX]
  rw [show debtOf [] X = 0 from rfl, zero_add]
  rw [List.filter_filter]
  congr 1
  congr 1
  apply List.filter_congr
  intro s _
  by_cases h : s.pelanggan_id = some X
  · simp [h]
  · simp [h]

/-- The customer of the worked debt example. -/
def andi : Pelanggan := { id := "A", namaPelanggan := "Andi" }

/-- Three sales of customer A: 100 on credit, 50 paid, 30 on credit. -/
def andiSales : List Penjualan :=
  [{ id := "t1", produk_id := "p", pelanggan_id := some "A"
     jumlahTerjual := 1, totalPendapatan := 100, statusPembayaran := "Hutang" },
   { id := "t2", produk_id := "p", pelanggan_id := some "A"
     jumlahTerjual := 1, totalPendapatan := 50, statusPembayaran := "Lunas" },
   { id := "t3", produk_id := "p", pelanggan_id := some "A"
     jumlahTerjual := 1, totalPendapatan := 30, statusPembayaran := "Hutang" }]

/-- C7 witness: the reported debt for A is 100 + 30 = 130, the paid sale
excluded. -/
theorem debt_total_witness :
    debtOf (fetchCustomersWithDebt [andi] andiSales) "A" = 130 := by
  rw [debt_total_spec [andi] andiSales "A" andi (by decide)]
  decide

/-- A row of the `Produk` table, untouched by `markAsPaid`. -/
structure Produk where
  id : String
  namaProduk : String
  hargaBeli : Int
  hargaJual : Int
  stokSaatIni : Int
deriving Repr, DecidableEq

/-- Both tables the debt page's store holds. -/
structure DStore where
  produk : List Produk
  penjualan : List Penjualan
deriving Repr, DecidableEq

/-- `markAsPaid` of `DebtManagement.tsx`: one update setting
`statusPembayaran` to `'Lunas'` on the sale rows with the given id; nothing
else is written. -/
def markAsPaid (st : DStore) (transactionId : String) : DStore :=
  { st with
    penjualan := st.penjualan.map fun s =>
      if s.id = transactionId then { s with statusPembayaran := "Lunas" }
      else s }

/-- Re-marking a list marked once changes nothing. -/
lemma markAsPaid_map_idem (tid : String) (l : List Penjualan) :
    ((l.map fun s =>
        if s.id = tid then { s with statusPembayaran := "Lunas" } else s).map
      fun s =>
        if s.id = tid then { s with statusPembayaran := "Lunas" } else s) =
    l.map fun s =>
      if s.id = tid then { s with statusPembayaran := "Lunas" } else s := by
  rw [List.map_map]
  apply List.map_congr_left
  intro s _
  by_cases h0 : s.id = tid
  · simp [Function.comp, h0]
  · simp [Function.comp, h0]

/-- C8: `markAsPaid` leaves the product table untouched, keeps every sale
with another id exactly as it was, replaces the targeted sale by the same
record with only `statusPembayaran` set to `'Lunas'`, leaves every row that
carries the target id with status `'Lunas'`, and is idempotent — a second
call on the same sale changes nothing. -/
theorem markAsPaid_spec (st : DStore) (tid : String) :
    (markAsPaid st tid).produk = st.produk ∧
    (∀ s ∈ st.penjualan, ¬ s.id = tid → s ∈ (markAsPaid st tid).penjualan) ∧
    (∀ s ∈ st.penjualan, s.id = tid →
      { s with statusPembayaran := "Lunas" } ∈ (markAsPaid st tid).penjualan) ∧
    (∀ s ∈ (markAsPaid st tid).penjualan, s.id = tid →
      s.statusPembayaran = "Lunas") ∧
    markAsPaid (markAsPaid st tid) tid = markAsPaid st tid := by
  refine ⟨rfl, ?_, ?_, ?_, ?_⟩
  · intro s hs hne
    exact List.mem_map.mpr ⟨s, hs, if_neg hne⟩
  · intro s hs he
    exact List.mem_map.mpr ⟨s, hs, if_pos he⟩
  · intro s hsmem he
    rcases List.mem_map.mp hsmem with ⟨s0, _, rfl⟩
    by_cases h0 : s0.id = tid
    · rw [if_pos h0]
    · rw [if_neg h0] at he ⊢
      exact absurd he h0
  · show markAsPaid (markAsPaid st tid) tid = markAsPaid st tid
    unfold markAsPaid
    congr 1
    exact markAsPaid_map_idem tid st.penjualan

end DebtManagement

namespace StockUpdate

/-- A row of the `Produk` table as `StockUpdate.tsx` reads it. -/
structure Produk where
  id : String
  namaProduk : String
  hargaBeli : Int
  hargaJual : Int
  stokSaatIni : Int
deriving Repr, DecidableEq

/-- The three manual stock operations of the update dialog. -/
inductive UpdateType
  | add
  | subtract
  | reset
deriving Repr, DecidableEq

/-- The `newStock` value `handleSubmit` computes from the selected product's
stock: `add` sums, `subtract` clamps at zero via `Math.max(0, ...)`, `reset`
stores the submitted value as is. -/
def newStockFor (current : Int) (t : UpdateType) (qty : Int) : Int :=
  match t with
  | .add => current + qty
  | .subtract => max 0 (current - qty)
  | .reset => qty

/-- `handleSubmit` of `StockUpdate.tsx`: with a selected product, the
computed `newStock` is written to that product's row; there is no
validation branch — no InsufficientStock and no InvalidQuantity exit. -/
def handleStockSubmit (products : List Produk) (pid : String)
    (t : UpdateType) (qty : Int) : List Produk :=
  match products.find? (fun p => p.id = pid) with
  | none => products
  | some selectedProduct =>
    let newStock := newStockFor selectedProduct.stokSaatIni t qty
    products.map fun p =>
      if p.id = pid then { p with stokSaatIni := newStock } else p

/-- A product with three units in stock. -/
def lowStock : Produk :=
  { id := "p1", namaProduk := "Class Mild", hargaBeli := 14
    hargaJual := 17, stokSaatIni := 3 }

/-- C9 counterexample: subtracting 5 from a stock of 3 does not fail with
InsufficientStock — the write goes through with the result clamped to 0,
so the stock does change. -/
theorem stock_subtract_clamps_cex :
    handleStockSubmit [lowStock] "p1" .subtract 5 =
      [{ lowStock with stokSaatIni := 0 }] ∧
    ¬ handleStockSubmit [lowStock] "p1" .subtract 5 = [lowStock] := by
  decide

/-- C9 (amended): the manual operations neither fail nor validate:
`subtract` always succeeds and writes `max 0 (stock - qty)` (clamping
instead of an InsufficientStock failure), and `reset` writes the submitted
value unconditionally — a negative value is stored as is, with no
InvalidQuantity failure. -/
theorem stock_update_spec (products : List Produk) (pid : String) (qty : Int)
    (sel : Produk)
    (hfind : products.find? (fun p => p.id = pid) = some sel) :
    handleStockSubmit products pid .subtract qty =
      (products.map fun p =>
        if p.id = pid then
          { p with stokSaatIni := max 0 (sel.stokSaatIni - qty) }
        else p) ∧
    handleStockSubmit products pid .reset qty =
      (products.map fun p =>
        if p.id = pid then { p with stokSaatIni := qty } else p) := by
  constructor
  · simp only [handleStockSubmit, hfind, newStockFor]
  · simp only [handleStockSubmit, hfind, newStockFor]

/-- C9 witness: resetting the three-unit product to -4 stores -4. -/
theorem stock_update_spec_witness :
    handleStockSubmit [lowStock] "p1" .reset (-4) =
      ([lowStock].map fun p =>
        if p.id = "p1" then { p with stokSaatIni := -4 } else p) :=
  (stock_update_spec [lowStock] "p1" (-4) lowStock (by decide)).2

end StockUpdate

end RokokKasir
